import Mathlib

/-!
Formal model of the conversation orchestration engine of the
acai-travel tech-challenge repository: the bounded tool-calling reply
loop, title generation, the concurrent start-conversation coordinator,
the retrying weather fetcher, and the holiday-calendar filter.

Go strings are modelled as lists of characters (`GoStr`); Go errors are
modelled by their message strings.  Fallible Go functions returning
`(T, error)` are modelled as `Except GoStr T` when the success and
failure cases are exclusive, and as explicit pairs when the Go code
returns both a value and an error together.
-/

/-- Go strings, modelled as lists of characters. -/
abbrev GoStr := List Char

/-- Coerce a Lean string literal to the `GoStr` model. -/
def gs (s : String) : GoStr := s.data

/-- Go errors, modelled by their formatted message (`fmt.Errorf`). -/
abbrev GoErr := GoStr

/-!
## Data model

`internal/chat/model` is not part of the sources we were given, so the
carriers below are reconstructed from how they are used in
`assistant.go` and `server.go`.  Modelled from the spec: `Role` is the
message role, with values `user` and `assistant`; the spec notes a tool
role "exists implicitly" and that other values may in principle occur,
so the model keeps an open constructor carrying the raw value.
-/

inductive Role where
  | user : Role
  | assistant : Role
  | other : GoStr → Role
deriving DecidableEq

/-- A stored conversation message (`model.Message`, identifiers and
timestamps elided as no claim depends on them). -/
structure Message where
  role : Role
  content : GoStr
deriving DecidableEq

/-- A stored conversation (`model.Conversation`). -/
structure Conversation where
  title : GoStr
  messages : List Message
deriving DecidableEq

/-- A tool call issued by the model
(`openai.ChatCompletionMessageToolCall`, flattened: `ID`,
`Function.Name`, `Function.Arguments`). -/
structure ToolCall where
  id : GoStr
  name : GoStr
  args : GoStr
deriving DecidableEq

/-- The message inside a model response choice
(`openai.ChatCompletionMessage`: `Content` and `ToolCalls`). -/
structure RespMessage where
  content : GoStr
  toolCalls : List ToolCall
deriving DecidableEq

/-- One choice of a model response (`resp.Choices[i]`). -/
structure Choice where
  message : RespMessage
deriving DecidableEq

/-- A model response (`openai.ChatCompletion`: the `Choices` list). -/
structure ModelResp where
  choices : List Choice
deriving DecidableEq

/-- One turn of the model-facing message sequence
(`openai.ChatCompletionMessageParamUnion`): a system message, a user
message, an assistant message (with its tool-call record, as preserved
by `message.ToParam()`), or a tool-result message carrying the id of
the call it answers (`openai.ToolMessage(result, call.ID)`). -/
inductive Turn where
  | system : GoStr → Turn
  | user : GoStr → Turn
  | assistant : GoStr → List ToolCall → Turn
  | toolResult : GoStr → GoStr → Turn
deriving DecidableEq

/-- A registered tool (`assistant.Tool`, restricted to the two members
the reply loop uses: `Name` and `Execute`; the context argument of
`Execute` is elided). -/
structure RTool where
  name : GoStr
  execute : GoStr → Except GoErr GoStr

/-- The model capability consumed by the reply loop: one call of
`a.cli.Chat.Completions.New` with the current message sequence, which
either fails or yields a response. -/
abbrev Model := List Turn → Except GoErr ModelResp

/-!
## Assistant.executeTool and the reply loop (`assistant.go`)
-/

/-- Name-based registry lookup (`a.tools[name]`), with the registry as
an association list keyed by tool name. -/
def findTool (tools : List RTool) (name : GoStr) : Option RTool :=
  tools.find? (fun t => t.name = name)

/-- `Assistant.executeTool`: dispatch by name; an unknown name fails
with the `unknown tool: <name>` error. -/
def executeTool (tools : List RTool) (name args : GoStr) : Except GoErr GoStr :=
  match findTool tools name with
  | none => .error ((gs ("unknown tool: ")) ++ name)
  | some t => t.execute args

/-- The result text placed in a tool-result turn for one call: the
tool's output on success, or `Tool execution failed: <err>` when
`executeTool` fails (`assistant.go` lines 155-161). -/
def execToolResult (tools : List RTool) (call : ToolCall) : GoStr :=
  match executeTool tools call.name call.args with
  | .ok r => r
  | .error e => (gs ("Tool execution failed: ")) ++ e

/-- The tool-result turn appended for one call
(`openai.ToolMessage(result, call.ID)`). -/
def toolResultTurn (tools : List RTool) (call : ToolCall) : Turn :=
  Turn.toolResult (execToolResult tools call) call.id

/-- The body of `Assistant.Reply`'s `for i := 0; i < 15; i++` loop,
with the remaining iteration count as fuel.  Returns the loop's result
together with the number of model calls made; `calls` accumulates the
calls already made.  Exhausting the fuel returns the
`too many tool calls` error. -/
def replyLoop (model : Model) (tools : List RTool) :
    Nat → List Turn → Nat → Except GoErr GoStr × Nat
  | 0, _, calls => (.error (gs ("too many tool calls, unable to generate reply")), calls)
  | fuel + 1, msgs, calls =>
    match model msgs with
    | .error e => (.error e, calls + 1)
    | .ok resp =>
      match resp.choices.head? with
      | none => (.error (gs ("no choices returned by OpenAI")), calls + 1)
      | some choice =>
        let message := choice.message
        if message.toolCalls.length > 0 then
          replyLoop model tools fuel
            (msgs ++ Turn.assistant message.content message.toolCalls ::
              message.toolCalls.map (toolResultTurn tools))
            (calls + 1)
        else
          (.ok message.content, calls + 1)

/-- The system preamble seeding the reply loop. -/
def systemPreamble : GoStr :=
  gs ("You are a helpful, concise AI assistant. Provide accurate, safe, and clear responses.")

/-- How one stored message is mapped into the seeded turn sequence:
the `switch m.Role` of `Assistant.Reply` — a user message becomes a
user turn, an assistant message an assistant turn (with no tool
calls), and any other role is not appended at all. -/
def roleTurn (m : Message) : Option Turn :=
  match m.role with
  | .user => some (Turn.user m.content)
  | .assistant => some (Turn.assistant m.content [])
  | .other _ => none

/-- The turn sequence `Assistant.Reply` seeds from the conversation:
the system preamble followed by the mapped stored messages. -/
def seedTurns (conv : Conversation) : List Turn :=
  Turn.system systemPreamble :: conv.messages.filterMap roleTurn

/-- `Assistant.Reply`: reject an empty conversation, otherwise run the
bounded loop (at most 15 iterations) from the seeded turn sequence.
Returns the result together with the number of model calls made. -/
def AssistantReply (model : Model) (tools : List RTool) (conv : Conversation) :
    Except GoErr GoStr × Nat :=
  if conv.messages.length = 0 then
    (.error (gs ("conversation has no messages")), 0)
  else
    replyLoop model tools 15 (seedTurns conv) 0

/-- A model that answers every call with a response whose first choice
carries at least one tool call. -/
def AlwaysToolCalls (model : Model) : Prop :=
  ∀ ms, ∃ c rest, model ms = .ok ⟨c :: rest⟩ ∧ c.message.toolCalls ≠ []

/-- A fixed tool call used to instantiate the loop theorems. -/
def wCall : ToolCall := ⟨gs ("1"), gs ("t"), gs ("")⟩

/-- A fixed model-response choice requesting one call of tool `t`. -/
def wChoice : Choice := ⟨⟨[], [wCall]⟩⟩

/-- A fixed model used to instantiate the loop theorems: it always
requests a single call of tool `t`. -/
def wModelLoop : Model :=
  fun _ => .ok ⟨[wChoice]⟩

/-- A fixed one-message conversation used to instantiate theorems. -/
def wConv : Conversation :=
  ⟨gs ("Untitled conversation"), [⟨Role.user, gs ("hi")⟩]⟩

/-!
## String helpers (the `strings` package operations the code uses)
-/

/-- The whitespace characters `strings.TrimSpace` trims (ASCII part of
Unicode White_Space, which is all the claims exercise). -/
def isSpaceGo (c : Char) : Bool :=
  c = ' ' || c = '\t' || c = '\n' || c = Char.ofNat 11 || c = Char.ofNat 12 || c = '\r'

/-- Trim characters satisfying `p` from the left end. -/
def trimLeftBy (p : Char → Bool) (s : GoStr) : GoStr :=
  s.dropWhile p

/-- Trim characters satisfying `p` from the right end. -/
def trimRightBy (p : Char → Bool) (s : GoStr) : GoStr :=
  (s.reverse.dropWhile p).reverse

/-- `strings.Trim`: trim characters satisfying `p` from both ends. -/
def trimBy (p : Char → Bool) (s : GoStr) : GoStr :=
  trimRightBy p (trimLeftBy p s)

/-- `strings.TrimSpace`. -/
def trimSpace (s : GoStr) : GoStr :=
  trimBy isSpaceGo s

/-!
## Assistant.Title (`assistant.go`)

The title path makes at most one model call, so the model capability is
represented by that call's outcome; the returned `Nat` counts the model
calls made.
-/

/-- The cutset of `strings.Trim(title, " \t\r\n-\x22'")`: space, tab,
carriage return, newline, hyphen, double quote, single quote. -/
def titleCutset (c : Char) : Bool :=
  [' ', '\t', '\r', '\n', '-', '"', '\''].contains c

/-- `strings.ReplaceAll(title, "\n", " ")`. -/
def replaceNl (s : GoStr) : GoStr :=
  s.map (fun c => if c = '\n' then ' ' else c)

/-- The final truncation `if len(title) > 80 { title = title[:80] }`. -/
def truncate80 (s : GoStr) : GoStr :=
  if s.length > 80 then s.take 80 else s

/-- The post-processing pipeline applied to the raw model output:
replace newlines, trim the cutset from both ends, truncate to 80. -/
def titlePost (raw : GoStr) : GoStr :=
  truncate80 (trimBy titleCutset (replaceNl raw))

/-- The error produced for a missing or blank title completion. -/
def emptyTitleErr : GoErr :=
  gs ("empty response from OpenAI for title generation")

/-- `Assistant.Title`: an empty conversation short-circuits to the
fixed default without a model call; otherwise one model call is made,
`len(resp.Choices) == 0 || TrimSpace(content) == ""` is rejected, and
the post-processed content is returned. -/
def AssistantTitle (modelRes : Except GoErr ModelResp) (conv : Conversation) :
    Except GoErr GoStr × Nat :=
  if conv.messages.length = 0 then
    (.ok (gs ("An empty conversation")), 0)
  else
    match modelRes with
    | .error e => (.error e, 1)
    | .ok resp =>
      match resp.choices.head? with
      | none => (.error emptyTitleErr, 1)
      | some c =>
        if trimSpace c.message.content = [] then
          (.error emptyTitleErr, 1)
        else
          (.ok (titlePost c.message.content), 1)

/-- A fixed model-response choice whose content is the C6 example raw
title. -/
def wTitleChoice : Choice :=
  ⟨⟨gs ("-- Weather chat in Barcelona --\n"), []⟩⟩

/-!
## Server.StartConversation (`server.go`)

The two concurrent tasks (`Title` and `Reply`) both receive the same
conversation snapshot and cannot observe each other, so each is fully
described by its result; the coordinator is a pure function of the two
results.  Persistence is modelled by recording the conversations
passed to `repo.CreateConversation`, whose own outcome is the
`createRes` parameter.
-/

/-- The default placeholder title of a new conversation. -/
def defaultTitle : GoStr := gs ("Untitled conversation")

/-- The payload of a successful `StartConversationResponse`
(the conversation id is elided). -/
structure StartResp where
  title : GoStr
  reply : GoStr
deriving DecidableEq

/-- `Server.StartConversation`: validate the message, join the two
task results, swallow a title failure (keeping the default title),
propagate a reply failure without persisting, and otherwise append the
assistant message and persist. -/
def startConversation (message : GoStr) (titleRes replyRes : Except GoErr GoStr)
    (createRes : Except GoErr Unit) : Except GoErr StartResp × List Conversation :=
  let conv0 : Conversation := ⟨defaultTitle, [⟨Role.user, message⟩]⟩
  if trimSpace message = [] then
    (.error (gs ("message is required")), [])
  else
    let conv1 : Conversation :=
      match titleRes with
      | .error _ => conv0
      | .ok t => ⟨t, conv0.messages⟩
    match replyRes with
    | .error e => (.error e, [])
    | .ok r =>
      let conv2 : Conversation := ⟨conv1.title, conv1.messages ++ [⟨Role.assistant, r⟩]⟩
      match createRes with
      | .error e => (.error e, [conv2])
      | .ok _ => (.ok ⟨conv2.title, r⟩, [conv2])

/-!
## WeatherClient.GetCurrentWeather (`weather_client.go`)

The flaky operation `fetchWeather` is a parameter indexed by the
attempt number; cancellation is a static flag observed at the `select`
on `ctx.Done()` during a backoff wait.  The model returns the Go
`(string, error)` pair together with the number of attempts performed
and the list of backoff delays waited, in milliseconds.
-/

/-- The canned user-safe fallback text returned when all retries
fail. -/
def weatherFallback : GoStr :=
  gs ("Unable to fetch weather data at the moment. The weather is probably fine though! 🌤️")

/-- The retry loop of `GetCurrentWeather`
(`for attempt := 0; attempt < maxRetries; attempt++`), with the
remaining attempt count as fuel and `attempt` the index of the next
attempt.  Before every attempt but the first it waits
`200ms * 2^(attempt-1)` — or returns `("", ctx.Err())` if the context
is cancelled — then runs the fetch: success returns the weather text,
failure records the error and retries. -/
def weatherGo (cancelled : Bool) (fetch : Nat → Except GoErr GoStr) :
    Nat → Nat → Option GoErr → List Nat → (GoStr × Option GoErr) × Nat × List Nat
  | 0, attempt, lastErr, delays => ((weatherFallback, lastErr), attempt, delays)
  | remaining + 1, attempt, lastErr, delays =>
    if attempt > 0 then
      if cancelled then
        ((gs (""), some (gs ("context canceled"))), attempt, delays)
      else
        match fetch attempt with
        | .ok w => ((w, none), attempt + 1, delays ++ [200 * 2 ^ (attempt - 1)])
        | .error e =>
          weatherGo cancelled fetch remaining (attempt + 1) (some e)
            (delays ++ [200 * 2 ^ (attempt - 1)])
    else
      match fetch attempt with
      | .ok w => ((w, none), attempt + 1, delays)
      | .error e => weatherGo cancelled fetch remaining (attempt + 1) (some e) delays

/-- `WeatherClient.GetCurrentWeather`: a missing API key returns the
unconfigured message at once; otherwise up to 3 attempts are made with
exponential backoff. -/
def getCurrentWeather (apiKey : GoStr) (cancelled : Bool)
    (fetch : Nat → Except GoErr GoStr) : (GoStr × Option GoErr) × Nat × List Nat :=
  if apiKey = [] then
    ((gs ("Weather API key not configured"), some (gs ("WEATHER_API_KEY not set"))), 0, [])
  else
    weatherGo cancelled fetch 3 0 none []

/-!
## HolidaysTool.Execute (`tool/date.go`)

JSON argument decoding and ICS feed parsing are done by external
libraries, so the filter is modelled on its structured inputs: the
optional parsed date bounds, the count cap, and the feed events in feed
order.  `GetAllDayStartAt` can fail per event, so an event carries an
optional date (`none` models a malformed date).  All-day dates compare
as calendar dates, which is what `time.After`/`time.Before` compute on
the midnight instants the parser yields.
-/

/-- A calendar date (`time.Time` restricted to the all-day dates the
holidays tool compares and formats). -/
structure Date where
  year : Nat
  month : Nat
  day : Nat
deriving DecidableEq

/-- Strict calendar order on dates: `dateLt a b` is `a.Before(b)`,
equivalently `b.After(a)`. -/
def dateLt (a b : Date) : Bool :=
  a.year < b.year ||
    (a.year = b.year && (a.month < b.month ||
      (a.month = b.month && a.day < b.day)))

/-- The decimal digit character of `n % 10`. -/
def digitChar (n : Nat) : Char := Char.ofNat (48 + n % 10)

/-- Two-digit zero-padded rendering (`%02d` for in-range values). -/
def pad2 (n : Nat) : GoStr := [digitChar (n / 10), digitChar n]

/-- Four-digit zero-padded rendering (`%04d` for in-range values). -/
def pad4 (n : Nat) : GoStr :=
  [digitChar (n / 1000), digitChar (n / 100), digitChar (n / 10), digitChar n]

/-- `date.Format(time.DateOnly)`: `YYYY-MM-DD`. -/
def formatDateOnly (d : Date) : GoStr :=
  pad4 d.year ++ (gs ("-")) ++ pad2 d.month ++ (gs ("-")) ++ pad2 d.day

/-- A parsed feed event: the result of `GetAllDayStartAt` (`none` when
the event's date is malformed) and the `SUMMARY` property. -/
structure Event where
  date : Option Date
  summary : GoStr

/-- The skip test `!beforeDate.IsZero() && date.After(beforeDate)`. -/
def beforeSkip (beforeD : Option Date) (d : Date) : Bool :=
  match beforeD with
  | some b => dateLt b d
  | none => false

/-- The skip test `!afterDate.IsZero() && date.Before(afterDate)`. -/
def afterSkip (afterD : Option Date) (d : Date) : Bool :=
  match afterD with
  | some a => dateLt d a
  | none => false

/-- `strings.Join(holidays, "\n")`. -/
def joinNl : List GoStr → GoStr
  | [] => []
  | [s] => s
  | s :: rest => s ++ (gs ("\n")) ++ joinNl rest

/-- The filtering loop of `HolidaysTool.Execute`: per event, skip a
malformed date, then break once `max_count` entries are collected
(cap checked before the date predicates), then apply the before/after
skips, else append the formatted entry. -/
def holidaysGo (beforeD afterD : Option Date) (maxCount : Int) :
    List Event → List GoStr → List GoStr
  | [], acc => acc
  | e :: rest, acc =>
    match e.date with
    | none => holidaysGo beforeD afterD maxCount rest acc
    | some d =>
      if maxCount > 0 ∧ (acc.length : Int) ≥ maxCount then
        acc
      else if beforeSkip beforeD d then
        holidaysGo beforeD afterD maxCount rest acc
      else if afterSkip afterD d then
        holidaysGo beforeD afterD maxCount rest acc
      else
        holidaysGo beforeD afterD maxCount rest
          (acc ++ [formatDateOnly d ++ (gs (": ")) ++ e.summary])

/-- `HolidaysTool.Execute` after argument and feed parsing: the
newline-joined filtered entries. -/
def holidaysExecute (beforeD afterD : Option Date) (maxCount : Int)
    (events : List Event) : GoStr :=
  joinNl (holidaysGo beforeD afterD maxCount events [])

/-!
## WeatherClient.fetchWeather formatting (`weather_client.go`)

The decoded API response is the structured input; `float64` fields are
modelled as rationals (the two comparisons the formatting performs,
`> 0` and `> 6`, are exact in both).  `%.1f` and `%.0f` are modelled
as decimal rounding; no claim depends on the numeric rendering
itself.  The single `fmt.Sprintf` of the source is decomposed into its
newline-separated lines, each a separate definition, with the
conditional precipitation and UV lines appended afterwards exactly as
in the source.
-/

/-- The decoded weather API response (`WeatherResponse`, flattened). -/
structure WeatherResp where
  locName : GoStr
  country : GoStr
  tempC : ℚ
  isDay : Int
  conditionText : GoStr
  windKph : ℚ
  windDir : GoStr
  humidity : Int
  cloud : Int
  feelsLikeC : ℚ
  precipMm : ℚ
  uv : ℚ

/-- Decimal digits of a natural number (`%d`). -/
def natRepr (n : Nat) : GoStr := Nat.toDigits 10 n

/-- `%d` for a Go int. -/
def intRepr (i : Int) : GoStr :=
  (if i < 0 then gs ("-") else []) ++ natRepr i.natAbs

/-- `%.1f`: one decimal place. -/
def fmtF1 (q : ℚ) : GoStr :=
  (if round (q * 10) < 0 then gs ("-") else []) ++
    natRepr ((round (q * 10)).natAbs / 10) ++ (gs (".")) ++
    [digitChar ((round (q * 10)).natAbs % 10)]

/-- `%.0f`: no decimal places. -/
def fmtF0 (q : ℚ) : GoStr :=
  (if round q < 0 then gs ("-") else []) ++ natRepr (round q).natAbs

/-- `during the day`, or `at night` when `IsDay == 0`. -/
def timeOfDayStr (r : WeatherResp) : GoStr :=
  if r.isDay = 0 then gs ("at night") else gs ("during the day")

/-- `Current weather in <name>, <country> (<timeOfDay>):`. -/
def headerLine (r : WeatherResp) : GoStr :=
  (gs ("Current weather in ")) ++ r.locName ++ (gs (", ")) ++ r.country ++
    (gs (" (")) ++ timeOfDayStr r ++ (gs ("):"))

/-- `Temperature: <t>°C (feels like <f>°C)`. -/
def tempLine (r : WeatherResp) : GoStr :=
  (gs ("Temperature: ")) ++ fmtF1 r.tempC ++ (gs ("°C (feels like ")) ++
    fmtF1 r.feelsLikeC ++ (gs ("°C)"))

/-- `Conditions: <text>`. -/
def condLine (r : WeatherResp) : GoStr :=
  (gs ("Conditions: ")) ++ r.conditionText

/-- `Wind: <kph> km/h from <dir>`. -/
def windLine (r : WeatherResp) : GoStr :=
  (gs ("Wind: ")) ++ fmtF1 r.windKph ++ (gs (" km/h from ")) ++ r.windDir

/-- `Humidity: <h>%`. -/
def humLine (r : WeatherResp) : GoStr :=
  (gs ("Humidity: ")) ++ intRepr r.humidity ++ (gs ("%"))

/-- `Cloud coverage: <c>%`. -/
def cloudLine (r : WeatherResp) : GoStr :=
  (gs ("Cloud coverage: ")) ++ intRepr r.cloud ++ (gs ("%"))

/-- `Precipitation: <p> mm` (appended only when `PrecipMm > 0`). -/
def precipLine (r : WeatherResp) : GoStr :=
  (gs ("Precipitation: ")) ++ fmtF1 r.precipMm ++ (gs (" mm"))

/-- ` High UV index: <uv> (use sun protection)` (appended only when
`UV > 6`; the source's format string begins with a space). -/
def uvLine (r : WeatherResp) : GoStr :=
  (gs (" High UV index: ")) ++ fmtF0 r.uv ++ (gs (" (use sun protection)"))

/-- The formatted weather string built by `fetchWeather`: the six
always-present lines, then the conditional precipitation line, then
the conditional UV warning line. -/
def fetchWeatherFormat (r : WeatherResp) : GoStr :=
  ((headerLine r ++ (gs ("\n")) ++ tempLine r ++ (gs ("\n")) ++ condLine r ++
      (gs ("\n")) ++ windLine r ++ (gs ("\n")) ++ humLine r ++ (gs ("\n")) ++
      cloudLine r) ++
    (if r.precipMm > 0 then (gs ("\n")) ++ precipLine r else [])) ++
    (if r.uv > 6 then (gs ("\n")) ++ uvLine r else [])

/-- The same string as its list of lines. -/
def weatherLines (r : WeatherResp) : List GoStr :=
  [headerLine r, tempLine r, condLine r, windLine r, humLine r, cloudLine r] ++
    (if r.precipMm > 0 then [precipLine r] else []) ++
    (if r.uv > 6 then [uvLine r] else [])

/-- Spec-side predicate: the message roles that reach the model-facing
turn sequence (user and assistant). -/
def keepRole (m : Message) : Bool :=
  match m.role with
  | .user => true
  | .assistant => true
  | .other _ => false

/-- Spec-side turn for a kept message: a user turn for a user message,
an assistant turn otherwise. -/
def msgTurn (m : Message) : Turn :=
  match m.role with
  | .user => Turn.user m.content
  | _ => Turn.assistant m.content []

/-- Spec-side reformulation of the seeded sequence: the system
preamble followed by one turn per user-or-assistant message, in
message order. -/
def seedTurnsSpec (conv : Conversation) : List Turn :=
  Turn.system systemPreamble :: (conv.messages.filter keepRole).map msgTurn

/-! ## Theorems -/

lemma replyLoop_exhausts (model : Model) (tools : List RTool)
    (H : AlwaysToolCalls model) :
    ∀ fuel msgs calls, replyLoop model tools fuel msgs calls =
      (.error (gs ("too many tool calls, unable to generate reply")), calls + fuel) := by
  intro fuel
  induction fuel with
  | zero =>
    intro msgs calls
    simp [replyLoop]
  | succ n ih =>
    intro msgs calls
    obtain ⟨c, rest, hm, hc⟩ := H msgs
    rw [replyLoop, hm]
    have hlen : c.message.toolCalls.length > 0 := List.length_pos.mpr hc
    simp only [List.head?, if_pos hlen]
    rw [ih _ (calls + 1)]
    congr 1
    omega

/-- C1: for every model that returns at least one tool call on every
response, `Assistant.Reply` on a conversation with at least one
message makes exactly 15 model calls and then fails with the
loop-exhausted error; it never makes a 16th model call and never
returns a free-text answer. -/
theorem reply_loop_exhausted_after_15 (model : Model) (tools : List RTool)
    (conv : Conversation) (hconv : conv.messages ≠ [])
    (H : AlwaysToolCalls model) :
    AssistantReply model tools conv =
      (.error (gs ("too many tool calls, unable to generate reply")), 15) := by
  unfold AssistantReply
  rw [if_neg (by simpa using hconv)]
  rw [replyLoop_exhausts model tools H 15 (seedTurns conv) 0]

/-- Witness for C1 at a concrete always-tool-calling model. -/
theorem reply_loop_exhausted_after_15_witness :
    AssistantReply wModelLoop [] wConv =
      (.error (gs ("too many tool calls, unable to generate reply")), 15) :=
  reply_loop_exhausted_after_15 wModelLoop [] wConv (by decide)
    (fun _ => ⟨_, _, rfl, by decide⟩)

/-- C2: in every iteration of the reply loop whose model response has
one or more tool calls, the model's own turn is appended first, then
exactly one tool-result turn per tool call, in the order the calls
appear in the response, and only then is the next model call made (the
loop recurses on the extended turn sequence). -/
theorem reply_iteration_turn_order (model : Model) (tools : List RTool)
    (fuel : Nat) (msgs : List Turn) (calls : Nat) (c : Choice) (rest : List Choice)
    (hm : model msgs = .ok ⟨c :: rest⟩) (hc : c.message.toolCalls ≠ []) :
    replyLoop model tools (fuel + 1) msgs calls =
      replyLoop model tools fuel
        (msgs ++ Turn.assistant c.message.content c.message.toolCalls ::
          c.message.toolCalls.map (toolResultTurn tools)) (calls + 1)
    ∧ (c.message.toolCalls.map (toolResultTurn tools)).length =
        c.message.toolCalls.length
    ∧ ∀ i, (c.message.toolCalls.map (toolResultTurn tools)).get? i =
        (c.message.toolCalls.get? i).map
          (fun call => Turn.toolResult (execToolResult tools call) call.id) := by
  refine ⟨?_, by simp, ?_⟩
  · rw [replyLoop, hm]
    have hlen : c.message.toolCalls.length > 0 := List.length_pos.mpr hc
    simp only [List.head?, if_pos hlen]
  · intro i
    simp only [List.get?_eq_getElem?, List.getElem?_map]
    cases c.message.toolCalls[i]? <;> rfl

/-- Witness for C2 at a concrete single-tool-call response. -/
theorem reply_iteration_turn_order_witness :
    (replyLoop wModelLoop [] 1 [] 0 =
      replyLoop wModelLoop [] 0
        ([] ++ Turn.assistant wChoice.message.content wChoice.message.toolCalls ::
          wChoice.message.toolCalls.map (toolResultTurn [])) (0 + 1))
    ∧ (wChoice.message.toolCalls.map (toolResultTurn [])).length =
        wChoice.message.toolCalls.length
    ∧ (wChoice.message.toolCalls.map (toolResultTurn [])).get? 0 =
        (wChoice.message.toolCalls.get? 0).map
          (fun call => Turn.toolResult (execToolResult [] call) call.id) := by
  have h := reply_iteration_turn_order wModelLoop [] 0 [] 0 wChoice [] rfl (by decide)
  exact ⟨h.1, h.2.1, h.2.2 0⟩

/-- C3: a failing tool execution, and in particular a call naming a
tool absent from the registry, never aborts the reply loop: the tool's
result turn carries the text `Tool execution failed: <err>`, dispatch
to an unknown name yields the `unknown tool` error, and the loop
continues with the extended turn sequence and the next model
round-trip. -/
theorem reply_tool_failure_recovered (model : Model) (tools : List RTool)
    (fuel : Nat) (msgs : List Turn) (calls : Nat) (c : Choice) (rest : List Choice)
    (hm : model msgs = .ok ⟨c :: rest⟩) (hc : c.message.toolCalls ≠ []) :
    (∀ call e, call ∈ c.message.toolCalls →
        executeTool tools call.name call.args = .error e →
        toolResultTurn tools call =
          Turn.toolResult ((gs ("Tool execution failed: ")) ++ e) call.id)
    ∧ (∀ name args, findTool tools name = none →
        executeTool tools name args = .error ((gs ("unknown tool: ")) ++ name))
    ∧ replyLoop model tools (fuel + 1) msgs calls =
        replyLoop model tools fuel
          (msgs ++ Turn.assistant c.message.content c.message.toolCalls ::
            c.message.toolCalls.map (toolResultTurn tools)) (calls + 1) := by
  refine ⟨?_, ?_, ?_⟩
  · intro call e _ herr
    simp [toolResultTurn, execToolResult, herr]
  · intro name args hfind
    simp [executeTool, hfind]
  · rw [replyLoop, hm]
    have hlen : c.message.toolCalls.length > 0 := List.length_pos.mpr hc
    simp only [List.head?, if_pos hlen]

/-- Witness for C3: the single call of the concrete model names a tool
missing from the empty registry, its result turn carries the failure
text, and the loop continues. -/
theorem reply_tool_failure_recovered_witness :
    (toolResultTurn [] wCall =
      Turn.toolResult ((gs ("Tool execution failed: ")) ++
        ((gs ("unknown tool: ")) ++ wCall.name)) wCall.id)
    ∧ (executeTool [] (gs ("t")) (gs ("")) =
        .error ((gs ("unknown tool: ")) ++ (gs ("t"))))
    ∧ replyLoop wModelLoop [] 1 [] 0 =
        replyLoop wModelLoop [] 0
          ([] ++ Turn.assistant wChoice.message.content wChoice.message.toolCalls ::
            wChoice.message.toolCalls.map (toolResultTurn [])) (0 + 1) := by
  have h := reply_tool_failure_recovered wModelLoop [] 0 [] 0 wChoice [] rfl (by decide)
  exact ⟨h.1 wCall _ (by decide) rfl, h.2.1 (gs ("t")) (gs ("")) rfl, h.2.2⟩

lemma filterMap_roleTurn (l : List Message) :
    l.filterMap roleTurn = (l.filter keepRole).map msgTurn := by
  induction l with
  | nil => simp
  | cons m t ih => cases h : m.role <;> simp [roleTurn, keepRole, msgTurn, h, ih]

/-- C10: the turn sequence `Assistant.Reply` seeds from a conversation
is the system preamble followed by one turn per message whose role is
user or assistant, in message order; a message carrying any other role
value is silently omitted rather than rejected. -/
theorem seed_turns_filters_roles (conv : Conversation) :
    seedTurns conv = seedTurnsSpec conv
    ∧ (∀ v c, roleTurn ⟨Role.other v, c⟩ = none)
    ∧ (∀ c, roleTurn ⟨Role.user, c⟩ = some (Turn.user c))
    ∧ (∀ c, roleTurn ⟨Role.assistant, c⟩ = some (Turn.assistant c [])) := by
  refine ⟨?_, fun v c => rfl, fun c => rfl, fun c => rfl⟩
  unfold seedTurns seedTurnsSpec
  rw [filterMap_roleTurn]

/-- C4: in `StartConversation`, if `Title` fails and `Reply` succeeds,
the conversation is persisted with the default title and the generated
reply appended; if `Reply` fails, `StartConversation` returns that
failure, persists nothing and appends no assistant message, whatever
`Title` did. -/
theorem start_conversation_partial_failure (message : GoStr)
    (hmsg : trimSpace message ≠ []) :
    (∀ et r, startConversation message (.error et) (.ok r) (.ok ()) =
      (.ok ⟨defaultTitle, r⟩,
        [⟨defaultTitle, [⟨Role.user, message⟩, ⟨Role.assistant, r⟩]⟩]))
    ∧ (∀ e titleRes createRes,
        startConversation message titleRes (.error e) createRes = (.error e, [])) := by
  constructor
  · intro et r
    simp [startConversation, hmsg]
  · intro e titleRes createRes
    cases titleRes <;> simp [startConversation, hmsg]

/-- Witness for C4 at concrete task results. -/
theorem start_conversation_partial_failure_witness :
    (startConversation (gs ("hi")) (.error (gs ("boom"))) (.ok (gs ("re"))) (.ok ()) =
      (.ok ⟨defaultTitle, gs ("re")⟩,
        [⟨defaultTitle, [⟨Role.user, gs ("hi")⟩, ⟨Role.assistant, gs ("re")⟩]⟩]))
    ∧ startConversation (gs ("hi")) (.ok (gs ("T"))) (.error (gs ("bad"))) (.ok ()) =
        (.error (gs ("bad")), []) :=
  ⟨(start_conversation_partial_failure (gs ("hi")) (by decide)).1 (gs ("boom")) (gs ("re")),
   (start_conversation_partial_failure (gs ("hi")) (by decide)).2 (gs ("bad"))
     (.ok (gs ("T"))) (.ok ())⟩

/-- C6: `Assistant.Title` post-processes the model output in order:
it fails while the trimmed raw text is empty, otherwise returns the
raw text with embedded newlines replaced by spaces, the cutset
(space, tab, carriage return, newline, hyphen, double quote, single
quote) trimmed from both ends, and anything longer than 80 characters
truncated to exactly 80; the example raw output yields
`Weather chat in Barcelona`. -/
theorem title_postprocess_pipeline (modelRes : Except GoErr ModelResp)
    (conv : Conversation) (resp : ModelResp) (c : Choice) (rest : List Choice)
    (hmsg : conv.messages ≠ []) (hm : modelRes = .ok resp)
    (hc : resp.choices = c :: rest) :
    (trimSpace c.message.content = [] →
      AssistantTitle modelRes conv = (.error emptyTitleErr, 1))
    ∧ (trimSpace c.message.content ≠ [] →
        AssistantTitle modelRes conv =
          (.ok (truncate80 (trimBy titleCutset (replaceNl c.message.content))), 1))
    ∧ (∀ s : GoStr, 80 < (trimBy titleCutset (replaceNl s)).length →
        (titlePost s).length = 80)
    ∧ (∀ s : GoStr, (titlePost s).length ≤ 80 ∨
        titlePost s = trimBy titleCutset (replaceNl s))
    ∧ titlePost (gs ("-- Weather chat in Barcelona --\n")) =
        gs ("Weather chat in Barcelona") := by
  have hlen : ¬ conv.messages.length = 0 := by simpa using hmsg
  refine ⟨?_, ?_, ?_, ?_, by decide⟩
  · intro hempty
    simp [AssistantTitle, hlen, hm, hc, hempty]
  · intro hne
    simp [AssistantTitle, hlen, hm, hc, hne, titlePost]
  · intro s hgt
    simp [titlePost, truncate80, hgt, List.length_take]
    omega
  · intro s
    by_cases h : 80 < (trimBy titleCutset (replaceNl s)).length
    · exact Or.inl (by simp [titlePost, truncate80, h, List.length_take])
    · exact Or.inr (by simp [titlePost, truncate80, h])

/-- Witness for C6 at the example raw model output. -/
theorem title_postprocess_pipeline_witness :
    AssistantTitle (.ok ⟨[wTitleChoice]⟩) wConv =
      (.ok (gs ("Weather chat in Barcelona")), 1) := by
  have h := title_postprocess_pipeline (.ok ⟨[wTitleChoice]⟩) wConv
    ⟨[wTitleChoice]⟩ wTitleChoice [] (by decide) rfl rfl
  rw [h.2.1 (by decide)]
  rfl

/-- C7: `Assistant.Title` on a conversation with zero messages returns
the literal default title without making any model call. -/
theorem title_empty_conversation (modelRes : Except GoErr ModelResp)
    (conv : Conversation) (h : conv.messages = []) :
    AssistantTitle modelRes conv = (.ok (gs ("An empty conversation")), 0) := by
  simp [AssistantTitle, h]

/-- Witness for C7: the default title comes back even when the model
capability would fail, since it is never consulted. -/
theorem title_empty_conversation_witness :
    AssistantTitle (.error (gs ("model is down"))) ⟨gs (""), []⟩ =
      (.ok (gs ("An empty conversation")), 0) :=
  title_empty_conversation (.error (gs ("model is down"))) ⟨gs (""), []⟩ rfl

/-- C5: with a configured API key and no cancellation,
`GetCurrentWeather` over a fetch that fails on every attempt performs
exactly 3 attempts, waits 200ms before the 2nd and 400ms before the
3rd, and returns the fixed fallback text with the last attempt's
error. -/
theorem weather_retries_then_fallback (apiKey : GoStr)
    (fetch : Nat → Except GoErr GoStr) (err : Nat → GoErr)
    (hkey : apiKey ≠ []) (hf : ∀ i, i < 3 → fetch i = .error (err i)) :
    getCurrentWeather apiKey false fetch =
      ((weatherFallback, some (err 2)), 3, [200, 400]) := by
  have h0 := hf 0 (by omega)
  have h1 := hf 1 (by omega)
  have h2 := hf 2 (by omega)
  simp [getCurrentWeather, hkey, weatherGo, h0, h1, h2]

/-- Witness for C5 at a fetch failing with a fixed error. -/
theorem weather_retries_then_fallback_witness :
    getCurrentWeather (gs ("k")) false (fun _ => .error (gs ("boom"))) =
      ((weatherFallback, some (gs ("boom"))), 3, [200, 400]) :=
  weather_retries_then_fallback (gs ("k")) (fun _ => .error (gs ("boom")))
    (fun _ => gs ("boom")) (by decide) (fun _ _ => rfl)

/-- C8: the holidays filter checks the count cap before the date
predicates on each iteration — it stops once `max_count` entries are
collected (when positive) even on an event its date predicates would
skip — skips events after a set before-bound or before a set
after-bound, silently skips malformed dates, and emits the remaining
events newline-joined in feed order as `YYYY-MM-DD: <summary>`; on
events dated 2024-01-01, 2024-06-15 and 2024-12-25 with
`after_date = 2024-02-01` and `max_count = 1` the output is exactly
`2024-06-15: <summary>`. -/
theorem holidays_filter_semantics (beforeD afterD : Option Date) (maxCount : Int)
    (e : Event) (rest : List Event) (acc : List GoStr) :
    (∀ d, e.date = some d → maxCount > 0 → (acc.length : Int) ≥ maxCount →
      holidaysGo beforeD afterD maxCount (e :: rest) acc = acc)
    ∧ (e.date = none →
      holidaysGo beforeD afterD maxCount (e :: rest) acc =
        holidaysGo beforeD afterD maxCount rest acc)
    ∧ (∀ d, e.date = some d → ¬(maxCount > 0 ∧ (acc.length : Int) ≥ maxCount) →
      beforeSkip beforeD d = true →
      holidaysGo beforeD afterD maxCount (e :: rest) acc =
        holidaysGo beforeD afterD maxCount rest acc)
    ∧ (∀ d, e.date = some d → ¬(maxCount > 0 ∧ (acc.length : Int) ≥ maxCount) →
      beforeSkip beforeD d = false → afterSkip afterD d = true →
      holidaysGo beforeD afterD maxCount (e :: rest) acc =
        holidaysGo beforeD afterD maxCount rest acc)
    ∧ (∀ d, e.date = some d → ¬(maxCount > 0 ∧ (acc.length : Int) ≥ maxCount) →
      beforeSkip beforeD d = false → afterSkip afterD d = false →
      holidaysGo beforeD afterD maxCount (e :: rest) acc =
        holidaysGo beforeD afterD maxCount rest
          (acc ++ [formatDateOnly d ++ (gs (": ")) ++ e.summary]))
    ∧ (∀ s1 s2 s3 : GoStr,
      holidaysExecute none (some ⟨2024, 2, 1⟩) 1
        [⟨some ⟨2024, 1, 1⟩, s1⟩, ⟨some ⟨2024, 6, 15⟩, s2⟩, ⟨some ⟨2024, 12, 25⟩, s3⟩] =
        (gs ("2024-06-15: ")) ++ s2) := by
  refine ⟨?_, ?_, ?_, ?_, ?_, ?_⟩
  · intro d hd h1 h2
    simp [holidaysGo, hd, h1, h2]
  · intro hd
    simp [holidaysGo, hd]
  · intro d hd hcap hb
    simp [holidaysGo, hd, hcap, hb]
  · intro d hd hcap hb ha
    simp [holidaysGo, hd, hcap, hb, ha]
  · intro d hd hcap hb ha
    simp [holidaysGo, hd, hcap, hb, ha]
  · intro s1 s2 s3
    rfl

/-- Witness for C8 at concrete summaries. -/
theorem holidays_filter_semantics_witness :
    holidaysExecute none (some ⟨2024, 2, 1⟩) 1
      [⟨some ⟨2024, 1, 1⟩, gs ("A")⟩, ⟨some ⟨2024, 6, 15⟩, gs ("B")⟩,
        ⟨some ⟨2024, 12, 25⟩, gs ("C")⟩] =
      (gs ("2024-06-15: ")) ++ (gs ("B")) :=
  (holidays_filter_semantics none (some ⟨2024, 2, 1⟩) 1
    ⟨some ⟨2024, 1, 1⟩, gs ("A")⟩ [] []).2.2.2.2.2 (gs ("A")) (gs ("B")) (gs ("C"))

lemma head_ne_of_head? (a b : GoStr) (c d : Char)
    (ha : a.head? = some c) (hb : b.head? = some d) (hcd : c ≠ d) : a ≠ b := by
  intro h
  subst h
  rw [ha] at hb
  exact hcd (Option.some.inj hb)

/-- C9: the formatted weather string always contains the temperature,
feels-like, condition, wind, humidity and cloud-coverage lines (it is
the newline-join of its line list, which always holds them), contains
the precipitation line iff the reported precipitation is greater than
0 mm, and contains the high-UV warning line iff the reported UV index
is greater than 6. -/
theorem weather_format_conditional_lines (r : WeatherResp) :
    fetchWeatherFormat r = joinNl (weatherLines r)
    ∧ headerLine r ∈ weatherLines r
    ∧ tempLine r ∈ weatherLines r
    ∧ condLine r ∈ weatherLines r
    ∧ windLine r ∈ weatherLines r
    ∧ humLine r ∈ weatherLines r
    ∧ cloudLine r ∈ weatherLines r
    ∧ (precipLine r ∈ weatherLines r ↔ r.precipMm > 0)
    ∧ (uvLine r ∈ weatherLines r ↔ r.uv > 6) := by
  have hP : (precipLine r).head? = some 'P' := rfl
  have hU : (uvLine r).head? = some ' ' := rfl
  have hH : (headerLine r).head? = some 'C' := rfl
  have hT : (tempLine r).head? = some 'T' := rfl
  have hC : (condLine r).head? = some 'C' := rfl
  have hW : (windLine r).head? = some 'W' := rfl
  have hHu : (humLine r).head? = some 'H' := rfl
  have hCl : (cloudLine r).head? = some 'C' := rfl
  have hPH := head_ne_of_head? _ _ _ _ hP hH (by decide)
  have hPT := head_ne_of_head? _ _ _ _ hP hT (by decide)
  have hPC := head_ne_of_head? _ _ _ _ hP hC (by decide)
  have hPW := head_ne_of_head? _ _ _ _ hP hW (by decide)
  have hPHu := head_ne_of_head? _ _ _ _ hP hHu (by decide)
  have hPCl := head_ne_of_head? _ _ _ _ hP hCl (by decide)
  have hPU := head_ne_of_head? _ _ _ _ hP hU (by decide)
  have hUH := head_ne_of_head? _ _ _ _ hU hH (by decide)
  have hUT := head_ne_of_head? _ _ _ _ hU hT (by decide)
  have hUC := head_ne_of_head? _ _ _ _ hU hC (by decide)
  have hUW := head_ne_of_head? _ _ _ _ hU hW (by decide)
  have hUHu := head_ne_of_head? _ _ _ _ hU hHu (by decide)
  have hUCl := head_ne_of_head? _ _ _ _ hU hCl (by decide)
  have hUP := head_ne_of_head? _ _ _ _ hU hP (by decide)
  refine ⟨?_, ?_, ?_, ?_, ?_, ?_, ?_, ?_, ?_⟩
  · by_cases hp : r.precipMm > 0 <;> by_cases hu : r.uv > 6 <;>
      simp [fetchWeatherFormat, weatherLines, joinNl, hp, hu, List.append_assoc]
  · simp [weatherLines]
  · simp [weatherLines]
  · simp [weatherLines]
  · simp [weatherLines]
  · simp [weatherLines]
  · simp [weatherLines]
  · constructor
    · intro hmem
      by_contra hp
      by_cases hu : r.uv > 6 <;>
        simp [weatherLines, hp, hu, hPH, hPT, hPC, hPW, hPHu, hPCl, hPU] at hmem
    · intro hp
      simp [weatherLines, hp]
  · constructor
    · intro hmem
      by_contra hu
      by_cases hp : r.precipMm > 0 <;>
        simp [weatherLines, hp, hu, hUH, hUT, hUC, hUW, hUHu, hUCl, hUP] at hmem
    · intro hu
      simp [weatherLines, hu]
